import Mathlib

/-!
Shallow embedding of the Hyakunin-Isshu quiz application core
(`modules/answer_validator.py`, `modules/quiz_generator.py`,
`modules/session_manager.py`, `modules/screen_manager.py`) together with
theorems settling the specification claims about it.

Modelling conventions:
* Python floats are modelled as rationals (`ℚ`); all the claimed point and
  time values are exactly representable, and the arithmetic involved
  (`+`, `-`, `* 0.1`, `min`, comparisons) is exact at those values.
* Randomness (`random.choice`, `random.shuffle`) is modelled by an explicit
  oracle: a stream of numbers used to pick indices, and a shuffle function.
  Theorems quantify over every oracle.
* Timestamps (`datetime.now`, `time.time`) carry no logic and are omitted
  from the records.
-/

namespace HyakuninIsshu

/-! ## answer_validator.py -/

/-- Embeds `AnswerStatus` enum of `answer_validator.py`. -/
inductive AnswerStatus where
  | correct
  | incorrect
  | skipped
  | timeout
  | hint_used
  deriving DecidableEq, Repr

/-- Embeds `AnswerResult` dataclass (timestamp and the unused `confidence_score`
field omitted). -/
structure AnswerResult where
  question_id : String
  poem_number : Nat
  question_text : String
  correct_answer : String
  user_answer : Option String
  answer_index : Option Int
  correct_index : Int
  status : AnswerStatus
  time_taken : ℚ
  hint_used : Bool
  deriving DecidableEq, Repr

/-- Embeds `AnswerResult.is_correct`: status is CORRECT or HINT_USED. -/
def AnswerResult.is_correct (r : AnswerResult) : Bool :=
  r.status = AnswerStatus.correct ∨ r.status = AnswerStatus.hint_used

/-- Embeds `AnswerResult.points`: 1.0 base for CORRECT plus a time bonus
`(5.0 - time_taken) * 0.1` when `time_taken ≤ 5.0`, capped at 1.5;
flat 0.7 for HINT_USED; 0 otherwise. -/
def AnswerResult.points (r : AnswerResult) : ℚ :=
  if r.status = AnswerStatus.correct then
    if r.time_taken ≤ 5 then
      min (1 + (5 - r.time_taken) * (1/10)) (3/2)
    else
      1
  else if r.status = AnswerStatus.hint_used then
    7/10
  else
    0

/-- Embeds `QuizStatistics` dataclass (the derived properties are not needed by the
claims; the counters and the result log are). -/
structure QuizStatistics where
  total_questions : Nat := 0
  correct_answers : Nat := 0
  incorrect_answers : Nat := 0
  skipped_answers : Nat := 0
  timeout_answers : Nat := 0
  hint_used_count : Nat := 0
  total_time : ℚ := 0
  total_points : ℚ := 0
  answer_results : List AnswerResult := []
  deriving DecidableEq, Repr

/-- Embeds `AnswerValidator._update_statistics`: bumps the aggregate counters for
one freshly judged result and appends it to the log.  Note that a
HINT_USED status bumps `hint_used_count`, and the `result.hint_used` flag
bumps it again. -/
def updateStatistics (stats : QuizStatistics) (result : AnswerResult) : QuizStatistics :=
  let stats := { stats with
    total_questions := stats.total_questions + 1
    total_time := stats.total_time + result.time_taken
    total_points := stats.total_points + result.points }
  let stats :=
    if result.status = AnswerStatus.correct then
      { stats with correct_answers := stats.correct_answers + 1 }
    else if result.status = AnswerStatus.hint_used then
      { stats with correct_answers := stats.correct_answers + 1
                   hint_used_count := stats.hint_used_count + 1 }
    else if result.status = AnswerStatus.incorrect then
      { stats with incorrect_answers := stats.incorrect_answers + 1 }
    else if result.status = AnswerStatus.skipped then
      { stats with skipped_answers := stats.skipped_answers + 1 }
    else if result.status = AnswerStatus.timeout then
      { stats with timeout_answers := stats.timeout_answers + 1 }
    else stats
  let stats :=
    if result.hint_used then
      { stats with hint_used_count := stats.hint_used_count + 1 }
    else stats
  { stats with answer_results := stats.answer_results ++ [result] }

/-- Truthiness test of `if timeout_seconds and time_taken >= timeout_seconds`:
`None` and `0.0` are falsy, any other value enables the comparison. -/
def timeoutTriggered (timeout_seconds : Option ℚ) (time_taken : ℚ) : Bool :=
  match timeout_seconds with
  | none => false
  | some ts => ts ≠ 0 ∧ time_taken ≥ ts

/-- Embeds `AnswerValidator._determine_answer_status`.  The fuzzy text comparison
`_compare_answers` (regex normalisation plus a containment ratio) is taken
as a parameter `cmp`; no claim under verification exercises the text path,
and every theorem below quantifies over it. -/
def determineAnswerStatus (cmp : String → String → Bool)
    (correct_answer : String) (correct_index : Int)
    (user_answer : Option String) (answer_index : Option Int)
    (hint_used : Bool) (timeout_seconds : Option ℚ) (time_taken : ℚ) :
    AnswerStatus :=
  if timeoutTriggered timeout_seconds time_taken then
    AnswerStatus.timeout
  else if user_answer = none ∧ answer_index = none then
    AnswerStatus.skipped
  else
    let is_correct :=
      match answer_index with
      | some ai => decide (ai = correct_index)
      | none =>
        match user_answer with
        | some ua => cmp correct_answer ua
        | none => false
    if is_correct then
      if hint_used then AnswerStatus.hint_used else AnswerStatus.correct
    else
      AnswerStatus.incorrect

/-- Embeds `AnswerValidator.check_answer`.  The surrounding `try/except` is
modelled by the flag `fail`: when the status-determination step raises,
the `except` branch returns a default result forced to INCORRECT and the
statistics accumulator is never touched. -/
def checkAnswer (cmp : String → String → Bool) (fail : Bool)
    (question_id : String) (poem_number : Nat) (question_text : String)
    (correct_answer : String) (correct_index : Int)
    (user_answer : Option String) (answer_index : Option Int)
    (time_taken : ℚ) (hint_used : Bool) (timeout_seconds : Option ℚ)
    (stats : QuizStatistics) : AnswerResult × QuizStatistics :=
  if fail then
    (⟨question_id, poem_number, question_text, correct_answer, user_answer,
      answer_index, correct_index, AnswerStatus.incorrect, time_taken,
      hint_used⟩, stats)
  else
    let status := determineAnswerStatus cmp correct_answer correct_index
      user_answer answer_index hint_used timeout_seconds time_taken
    let result : AnswerResult :=
      ⟨question_id, poem_number, question_text, correct_answer, user_answer,
       answer_index, correct_index, status, time_taken, hint_used⟩
    (result, updateStatistics stats result)

/-! ## quiz_generator.py -/

/-- Embeds `QuizType` enum of `quiz_generator.py`. -/
inductive QuizType where
  | upper_to_lower
  | lower_to_upper
  | author_to_poem
  | poem_to_author
  deriving DecidableEq, Repr

/-- One poem record.  `number` models `p.get('number', p.get('id', 0))`,
the single accessor pattern used throughout the module; the metadata
fields feeding only the explanation text are omitted. -/
structure Poem where
  number : Nat
  upper : String
  lower : String
  author : String
  deriving DecidableEq, Repr

/-- The source of randomness: `pick k` supplies the index drawn by the
`k`-th `random.choice` of one generation, and `shuffle` models
`random.shuffle`.  Theorems quantify over every oracle. -/
structure RandomOracle where
  pick : Nat → Nat
  shuffle : List String → List String

/-- The `{question, choices, correct, correct_index}` dict returned by the
`_generate_*` helpers. -/
structure GenResult where
  question : String
  choices : List String
  correct : String
  correct_index : Nat
  deriving DecidableEq, Repr

/-- Embeds `QuizQuestion` dataclass (`explanation` and the back-reference
`poem_data` are omitted: no claim concerns them). -/
structure QuizQuestion where
  poem_number : Nat
  quiz_type : QuizType
  question_text : String
  choices : List String
  correct_answer : String
  correct_answer_index : Nat
  difficulty : String
  deriving DecidableEq, Repr

/-- The distractor loop shared (up to the drawn field and the
`!= correct` test) by `_generate_upper_to_lower`,
`_generate_lower_to_upper` and `_generate_author_to_poem`:
`while len(wrong_choices) < 3 and other_poems:` draws a random poem,
appends its field when it is not already chosen (and, when
`excludeCorrect`, not the correct answer), and removes the poem from the
candidate list.  Terminates because the candidate list shrinks each
iteration. -/
def drawWrongChoices (pick : Nat → Nat) (field : Poem → String)
    (correct : String) (excludeCorrect : Bool) :
    Nat → List Poem → List String → List String
  | _, [], acc => acc
  | k, p :: ps, acc =>
    if acc.length < 3 then
      let wrong_poem := (p :: ps).get
        ⟨pick k % (ps.length + 1), Nat.mod_lt _ (Nat.succ_pos _)⟩
      let wrong := field wrong_poem
      let acc' :=
        if wrong ∉ acc ∧ (excludeCorrect = true → wrong ≠ correct) then
          acc ++ [wrong]
        else acc
      drawWrongChoices pick field correct excludeCorrect (k + 1)
        ((p :: ps).erase wrong_poem) acc'
    else acc
  termination_by _ others _ => others.length
  decreasing_by
    simp only [List.length_erase_of_mem (List.get_mem _ _ _)]
    simp

/-- Embeds `QuizGenerator._generate_upper_to_lower`. -/
def generateUpperToLower (o : RandomOracle) (poems_data : List Poem)
    (poem : Poem) : GenResult :=
  let question := poem.upper
  let correct := poem.lower
  let other_poems := poems_data.filter (fun p => p.number ≠ poem.number)
  let wrong_choices := drawWrongChoices o.pick Poem.lower correct true 0 other_poems []
  let choices := o.shuffle (wrong_choices ++ [correct])
  ⟨question, choices, correct, choices.indexOf correct⟩

/-- Embeds `QuizGenerator._generate_lower_to_upper`. -/
def generateLowerToUpper (o : RandomOracle) (poems_data : List Poem)
    (poem : Poem) : GenResult :=
  let question := poem.lower
  let correct := poem.upper
  let other_poems := poems_data.filter (fun p => p.number ≠ poem.number)
  let wrong_choices := drawWrongChoices o.pick Poem.upper correct true 0 other_poems []
  let choices := o.shuffle (wrong_choices ++ [correct])
  ⟨question, choices, correct, choices.indexOf correct⟩

/-- The "upper lower" full text used by `_generate_author_to_poem`. -/
def fullText (p : Poem) : String :=
  p.upper ++ " " ++ p.lower

/-- Embeds `QuizGenerator._generate_author_to_poem`.  Note: its accept test is
only `wrong_answer not in wrong_choices` — unlike the other generators it
does not compare the candidate against the correct answer. -/
def generateAuthorToPoem (o : RandomOracle) (poems_data : List Poem)
    (poem : Poem) : GenResult :=
  let question := "「" ++ poem.author ++ "」が詠んだ歌は？"
  let correct := fullText poem
  let other_poems := poems_data.filter (fun p => p.number ≠ poem.number)
  let wrong_choices := drawWrongChoices o.pick fullText correct false 0 other_poems []
  let choices := o.shuffle (wrong_choices ++ [correct])
  ⟨question, choices, correct, choices.indexOf correct⟩

/-- The distractor loop of `_generate_poem_to_author`:
`while len(wrong_choices) < 3:` draws from `all_authors` with replacement
and has no exhaustion guard.  `fuel` bounds how many iterations we unfold;
`none` means the loop is still running after `fuel` iterations. -/
def drawAuthorChoices (pick : Nat → Nat) (all_authors : List String)
    (correct : String) : Nat → Nat → List String → Option (List String)
  | 0, _, _ => none
  | fuel + 1, k, acc =>
    if acc.length < 3 then
      drawAuthorChoices pick all_authors correct fuel (k + 1)
        (if all_authors.getD (pick k % all_authors.length) "" ≠ correct ∧
            all_authors.getD (pick k % all_authors.length) "" ∉ acc then
          acc ++ [all_authors.getD (pick k % all_authors.length) ""]
        else acc)
    else
      some acc

/-- Embeds `QuizGenerator._generate_poem_to_author`.  `list(set(...))` over the
authors is modelled as `dedup` (its order does not matter: the index
stream is universally quantified).  `none` propagates a distractor loop
that has not finished within `fuel` iterations — in Python the call never
returns. -/
def generatePoemToAuthor (fuel : Nat) (o : RandomOracle)
    (poems_data : List Poem) (poem : Poem) : Option GenResult :=
  match drawAuthorChoices o.pick ((poems_data.map Poem.author).dedup)
      poem.author fuel 0 [] with
  | none => none
  | some wrong_choices =>
      some ⟨fullText poem,
            o.shuffle (wrong_choices ++ [poem.author]),
            poem.author,
            (o.shuffle (wrong_choices ++ [poem.author])).indexOf poem.author⟩

/-- Embeds `QuizGenerator` mutable state: the corpus and the used-question set.
Python stores ids as strings `f"{number}_{quiz_type.value}"`; the number
renders without an underscore and the four type values are distinct
strings, so the id is in bijection with the `(number, quizType)` pair,
which is what we store. -/
structure QuizGenState where
  poems_data : List Poem
  used_questions : List (Nat × QuizType)
  deriving DecidableEq, Repr

/-- The hard-coded famous numbers of `_get_beginner_poems`. -/
def famousNumbers : List Nat :=
  [1, 2, 5, 7, 9, 13, 17, 20, 23, 24, 33, 35, 43, 48, 51, 57, 66, 77, 83, 99]

/-- Embeds `QuizGenerator._get_beginner_poems`. -/
def getBeginnerPoems (poems : List Poem) : List Poem :=
  poems.filter (fun p => p.number ∈ famousNumbers)

/-- Embeds `QuizGenerator._get_intermediate_poems`. -/
def getIntermediatePoems (poems : List Poem) : List Poem :=
  poems.filter (fun p => 21 ≤ p.number ∧ p.number ≤ 60)

/-- Embeds `self.difficulty_poems.get(difficulty, self.poems_data)`. -/
def difficultyPoems (poems : List Poem) (difficulty : String) : List Poem :=
  if difficulty = "beginner" then getBeginnerPoems poems
  else if difficulty = "intermediate" then getIntermediatePoems poems
  else poems

/-- The filter pipeline at the head of `generate_question`: difficulty
tier, then `exclude_numbers`, then the used-question set. -/
def availablePoems (g : QuizGenState) (quiz_type : QuizType)
    (difficulty : String) (exclude_numbers : List Nat) : List Poem :=
  ((difficultyPoems g.poems_data difficulty).filter
      (fun p => p.number ∉ exclude_numbers)).filter
    (fun p => (p.number, quiz_type) ∉ g.used_questions)

/-- Embeds `random.choice(available_poems)`: the element at the drawn index. -/
def chosenPoem (o : RandomOracle) (available : List Poem)
    (h : available ≠ []) : Poem :=
  available.get ⟨o.pick 0 % available.length,
    Nat.mod_lt _ (List.length_pos.mpr h)⟩

/-- Embeds `QuizGenerator.generate_question`.  `none` models a call that never
returns (the POEM_TO_AUTHOR distractor loop failing to finish within
`fuel` iterations); `some (none, g)` is the Python `None` result when no
poem is available; `some (some q, g')` is a generated question with the
updated state. -/
def generateQuestion (fuel : Nat) (o : RandomOracle) (g : QuizGenState)
    (quiz_type : QuizType) (difficulty : String)
    (exclude_numbers : List Nat) :
    Option (Option QuizQuestion × QuizGenState) :=
  if h : availablePoems g quiz_type difficulty exclude_numbers = [] then
    some (none, g)
  else
    let poem := chosenPoem o (availablePoems g quiz_type difficulty exclude_numbers) h
    let res? : Option GenResult :=
      match quiz_type with
      | QuizType.upper_to_lower => some (generateUpperToLower o g.poems_data poem)
      | QuizType.lower_to_upper => some (generateLowerToUpper o g.poems_data poem)
      | QuizType.author_to_poem => some (generateAuthorToPoem o g.poems_data poem)
      | QuizType.poem_to_author => generatePoemToAuthor fuel o g.poems_data poem
    match res? with
    | none => none
    | some res =>
        some (some ⟨poem.number, quiz_type, res.question, res.choices,
                    res.correct, res.correct_index, difficulty⟩,
              { g with used_questions :=
                  (poem.number, quiz_type) :: g.used_questions })

/-- Embeds `QuizGenerator.reset_used_questions`. -/
def resetUsedQuestions (g : QuizGenState) : QuizGenState :=
  { g with used_questions := [] }

/-- Arguments of one `generate_question` call in a trace. -/
structure GenCall where
  fuel : Nat
  o : RandomOracle
  quiz_type : QuizType
  difficulty : String
  exclude_numbers : List Nat

/-- A sequence of `generate_question` calls on one generator instance with
no intervening reset; a diverging call ends the trace (in Python the
process hangs there, so no further question is ever returned). -/
def runGen (g : QuizGenState) : List GenCall → List QuizQuestion × QuizGenState
  | [] => ([], g)
  | c :: cs =>
    match generateQuestion c.fuel c.o g c.quiz_type c.difficulty c.exclude_numbers with
    | none => ([], g)
    | some (none, g₁) => runGen g₁ cs
    | some (some q, g₁) =>
        let rest := runGen g₁ cs
        (q :: rest.1, rest.2)

/-! ## session_manager.py -/

/-- Embeds `ScreenType` enum of `session_manager.py`. -/
inductive ScreenType where
  | start
  | quiz
  | result
  | settings
  | review
  deriving DecidableEq, Repr

/-- Embeds `QuizMode` enum. -/
inductive QuizMode where
  | upper_to_lower
  | lower_to_upper
  | author_to_poem
  | poem_to_author
  deriving DecidableEq, Repr

/-- Embeds `Difficulty` enum. -/
inductive Difficulty where
  | beginner
  | intermediate
  | advanced
  deriving DecidableEq, Repr

/-- Embeds `QuizSettings` dataclass. -/
structure QuizSettings where
  mode : QuizMode := QuizMode.upper_to_lower
  difficulty : Difficulty := Difficulty.beginner
  total_questions : Int := 10
  enable_hints : Bool := true
  show_explanations : Bool := true
  time_limit : Option Int := none
  deriving DecidableEq, Repr

/-- Embeds `QuestionResult` dataclass of `session_manager.py`. -/
structure QuestionResult where
  poem_number : Nat
  question : String
  correct_answer : String
  user_answer : Option String
  is_correct : Bool
  time_taken : Option ℚ := none
  used_hint : Bool := false
  deriving DecidableEq, Repr

/-- Embeds `QuizSession` dataclass (`start_time` omitted). -/
structure QuizSession where
  session_id : String
  settings : QuizSettings := {}
  current_question : Int := 0
  score : Int := 0
  results : List QuestionResult := []
  wrong_answers : List Nat := []
  question_pool : List Nat := []
  is_completed : Bool := false
  deriving DecidableEq, Repr

/-- The slice of `st.session_state` owned by `SessionManager`: the current
screen, the quiz session, and the per-question UI state keys. -/
structure SessionState where
  current_screen : ScreenType
  quiz_session : Option QuizSession
  current_poem : Option Poem
  choices : List String
  answered : Bool
  user_answer : Option String
  show_result : Bool
  deriving DecidableEq, Repr

/-- Embeds `SessionManager._reset_question_state`. -/
def resetQuestionState (s : SessionState) : SessionState :=
  { s with current_poem := none, choices := [], answered := false,
           user_answer := none, show_result := false }

/-- Embeds `SessionManager.advance_question`: bump the index; at
`total_questions` mark the session completed and move to the result
screen, otherwise clear the per-question state. -/
def advanceQuestion (s : SessionState) : SessionState :=
  match s.quiz_session with
  | none => s
  | some qs =>
    let qs := { qs with current_question := qs.current_question + 1 }
    if qs.current_question ≥ qs.settings.total_questions then
      { s with quiz_session := some { qs with is_completed := true },
               current_screen := ScreenType.result }
    else
      resetQuestionState { s with quiz_session := some qs }

/-! ## screen_manager.py -/

/-- Embeds `ScreenState` dataclass of `screen_manager.py` (entry timestamp, data
payload and the presentation-only fields are omitted; the claims concern
creation and dirtiness only). -/
structure ScrState where
  screen_id : String
  previous_screen : Option String := none
  is_dirty : Bool := false
  deriving DecidableEq, Repr

/-- Embeds `NavigationRule`.  The optional `condition` callable is modelled by
the boolean it would return (`none` when no condition is attached); the
optional `on_transition` hook mutates nothing in the state modelled here
(the quiz rules of the application attach no hook) and is omitted. -/
structure NavigationRule where
  from_screen : String
  to_screen : String
  condition : Option Bool := none
  confirmation_required : Bool := false
  confirmation_message : String := ""
  deriving DecidableEq, Repr

/-- The state owned by `ScreenManager`: the `st.session_state.screen_manager`
dict (current screen, per-screen states, history, transition flag), the
manager's rule list and screen stack, and the two confirmation keys that
`_show_confirmation` keeps directly in `st.session_state`. -/
structure ScreenMgrState where
  current_screen : Option String
  screen_states : String → Option ScrState
  navigation_history : List (Option String × String)
  transition_in_progress : Bool
  navigation_rules : List NavigationRule
  screen_stack : List String
  confirmation_pending : Option String
  confirmation_result : Option Bool

/-- Embeds `ScreenManager._show_confirmation`: the first call records the pending
message and refuses; a later call consumes the stored result (defaulting
to `False`) and clears both keys. -/
def showConfirmation (s : ScreenMgrState) (message : String) :
    Bool × ScreenMgrState :=
  match s.confirmation_pending with
  | none => (false, { s with confirmation_pending := some message })
  | some _ =>
      (s.confirmation_result.getD false,
       { s with confirmation_pending := none, confirmation_result := none })

/-- Embeds `ScreenManager._check_navigation_rules`: scan the rules in order; a
matching rule fails the check when its condition is false or its required
confirmation is not granted; matching rules that pass are skipped over. -/
def checkNavigationRules (from_screen : Option String) (to_screen : String) :
    List NavigationRule → ScreenMgrState → Bool × ScreenMgrState
  | [], s => (true, s)
  | r :: rs, s =>
    if some r.from_screen = from_screen ∧ r.to_screen = to_screen then
      if r.condition = some false then
        (false, s)
      else if r.confirmation_required then
        match showConfirmation s r.confirmation_message with
        | (false, s₁) => (false, s₁)
        | (true, s₁) => checkNavigationRules from_screen to_screen rs s₁
      else
        checkNavigationRules from_screen to_screen rs s
    else
      checkNavigationRules from_screen to_screen rs s

/-- Embeds `ScreenManager._save_current_screen_state`: flag the current screen's
state clean. -/
def saveCurrentScreenState (s : ScreenMgrState) (screen_id : String) :
    ScreenMgrState :=
  match s.screen_states screen_id with
  | none => s
  | some st =>
      { s with screen_states := fun k =>
          if k = screen_id then some { st with is_dirty := false }
          else s.screen_states k }

/-- Embeds `ScreenManager._add_to_history`: append, bounded to the last 50. -/
def addToHistory (s : ScreenMgrState) (fr : Option String) (to_s : String) :
    ScreenMgrState :=
  let history := s.navigation_history ++ [(fr, to_s)]
  { s with navigation_history :=
      if history.length > 50 then history.drop (history.length - 50)
      else history }

/-- Embeds `ScreenManager._update_screen_stack`: move-to-top, bounded to 10. -/
def updateScreenStack (s : ScreenMgrState) (screen_id : String) :
    ScreenMgrState :=
  let stack := (s.screen_stack.erase screen_id) ++ [screen_id]
  { s with screen_stack :=
      if stack.length > 10 then stack.drop (stack.length - 10) else stack }

/-- Embeds `ScreenManager.navigate_to` (transition callbacks and CSS effects
omitted: they do not touch the modelled state).  Returns the success flag
and the new state. -/
def navigateTo (s : ScreenMgrState) (target_screen : String)
    (force : Bool := false) : Bool × ScreenMgrState :=
  if s.current_screen = some target_screen ∧ force = false then
    (false, s)
  else if s.transition_in_progress = true ∧ force = false then
    (false, s)
  else
    match checkNavigationRules s.current_screen target_screen
        s.navigation_rules s with
    | (false, s₁) => (false, s₁)
    | (true, s₁) =>
        let s₂ := { s₁ with transition_in_progress := true }
        let s₃ :=
          match s₂.current_screen with
          | none => s₂
          | some c => saveCurrentScreenState s₂ c
        let new_state : ScrState :=
          { screen_id := target_screen, previous_screen := s₃.current_screen }
        let s₄ := { s₃ with
          screen_states := fun k =>
            if k = target_screen then some new_state else s₃.screen_states k,
          current_screen := some target_screen }
        let s₅ := addToHistory s₄ s₃.current_screen target_screen
        let s₆ := updateScreenStack s₅ target_screen
        (true, { s₆ with transition_in_progress := false })

/-! ## Concrete data for counterexamples and witnesses -/

/-- An oracle that always draws index 0 and does not shuffle. -/
def idOracle : RandomOracle := ⟨fun _ => 0, fun l => l⟩

/-- Two different poems by one and the same author: the failing input of
the POEM_TO_AUTHOR distractor loop. -/
def oneAuthorPoems : List Poem :=
  [⟨1, "u1", "l1", "A"⟩, ⟨2, "u2", "l2", "A"⟩]

/-- Generator state over `oneAuthorPoems` with nothing used yet. -/
def oneAuthorState : QuizGenState := ⟨oneAuthorPoems, []⟩

/-- Two poems with different numbers but identical text: the failing input
of the AUTHOR_TO_POEM duplicate-exclusion. -/
def twinPoems : List Poem :=
  [⟨1, "u", "l", "a"⟩, ⟨2, "u", "l", "b"⟩]

/-- Generator state over `twinPoems` with nothing used yet. -/
def twinState : QuizGenState := ⟨twinPoems, []⟩

/-- The question `generate_question` produces from `twinState` for
AUTHOR_TO_POEM under `idOracle`: the correct text appears twice among the
choices. -/
def dupQuestion : QuizQuestion :=
  ⟨1, QuizType.author_to_poem, "「a」が詠んだ歌は？", ["u l", "u l"],
   "u l", 0, "advanced"⟩

/-- A one-poem corpus, used to instantiate hypotheses of generator
theorems at a concrete input. -/
def soloPoems : List Poem := [⟨1, "u1", "l1", "a1"⟩]

/-- Generator state over `soloPoems` with nothing used yet. -/
def soloState : QuizGenState := ⟨soloPoems, []⟩

/-- The question `generate_question` produces from `soloState` for
UPPER_TO_LOWER under `idOracle`: no other poem exists, so the single
choice is the correct answer. -/
def soloQuestion : QuizQuestion :=
  ⟨1, QuizType.upper_to_lower, "u1", ["l1"], "l1", 0, "advanced"⟩

/-- A quiz session standing on its last question
(`current_question = total_questions - 1` with the default total of 10). -/
def qsW : QuizSession :=
  { session_id := "s1", current_question := 9 }

/-- A session-state snapshot holding `qsW` on the quiz screen. -/
def sessionW : SessionState :=
  { current_screen := ScreenType.quiz
    quiz_session := some qsW
    current_poem := none
    choices := []
    answered := false
    user_answer := none
    show_result := false }

/-- A session-state snapshot holding a mid-quiz session (question 3 of
10). -/
def sessionMidW : SessionState :=
  { current_screen := ScreenType.quiz
    quiz_session := some { session_id := "s2", current_question := 3 }
    current_poem := none
    choices := []
    answered := true
    user_answer := some "x"
    show_result := true }

/-- The quiz→start interruption rule installed by
`_setup_quiz_navigation_rules`. -/
def quizInterruptRule : NavigationRule :=
  { from_screen := "quiz", to_screen := "start",
    confirmation_required := true,
    confirmation_message := "クイズを中断しますか？進捗は失われます。" }

/-- A screen-manager state sitting on the quiz screen with the
interruption rule installed and no confirmation granted. -/
def screenW : ScreenMgrState :=
  { current_screen := some "quiz"
    screen_states := fun _ => none
    navigation_history := []
    transition_in_progress := false
    navigation_rules := [quizInterruptRule]
    screen_stack := ["quiz"]
    confirmation_pending := none
    confirmation_result := none }

/-! ### Helper lemmas for the validator -/

/-- A HINT_USED status can only be produced when the `hint_used` flag was
set on the call. -/
theorem determineAnswerStatus_hint_used_flag (cmp : String → String → Bool)
    (ca : String) (ci : Int) (ua : Option String) (ai : Option Int)
    (hu : Bool) (ts : Option ℚ) (t : ℚ)
    (h : determineAnswerStatus cmp ca ci ua ai hu ts t = AnswerStatus.hint_used) :
    hu = true := by
  unfold determineAnswerStatus at h
  split_ifs at h
  all_goals simp_all [ite_eq_iff]

/-- Effect of `_update_statistics` on the hint counter, by case on the
result: a HINT_USED result with the flag set bumps it twice, and no result
bumps it more than twice. -/
theorem updateStatistics_hint_count (stats : QuizStatistics) (r : AnswerResult) :
    ((r.status = AnswerStatus.hint_used ∧ r.hint_used = true) →
      (updateStatistics stats r).hint_used_count = stats.hint_used_count + 2)
  ∧ (updateStatistics stats r).hint_used_count ≤ stats.hint_used_count + 2 := by
  unfold updateStatistics
  cases hst : r.status <;> cases hhu : r.hint_used <;> simp [hst, hhu]

/-! ### Claim theorems about the validator -/

/-- C1: the point value is determined by status and time: CORRECT with
`time_taken = 0` is exactly 1.5, with 5.0 exactly 1.0, with 10.0 exactly
1.0; the time bonus `(5 - t) * 0.1` applies exactly when `t ≤ 5` and is
capped at 1.5; HINT_USED is exactly 0.7; SKIPPED, INCORRECT and TIMEOUT
are exactly 0. -/
theorem points_by_status_and_time (r : AnswerResult) :
    (r.status = AnswerStatus.correct → r.time_taken = 0 → r.points = 3/2)
  ∧ (r.status = AnswerStatus.correct → r.time_taken = 5 → r.points = 1)
  ∧ (r.status = AnswerStatus.correct → r.time_taken = 10 → r.points = 1)
  ∧ (r.status = AnswerStatus.correct → r.time_taken ≤ 5 →
      r.points = min (1 + (5 - r.time_taken) * (1/10)) (3/2))
  ∧ (r.status = AnswerStatus.correct → ¬ r.time_taken ≤ 5 → r.points = 1)
  ∧ (r.status = AnswerStatus.hint_used → r.points = 7/10)
  ∧ ((r.status = AnswerStatus.skipped ∨ r.status = AnswerStatus.incorrect ∨
      r.status = AnswerStatus.timeout) → r.points = 0) := by
  unfold AnswerResult.points
  refine ⟨?_, ?_, ?_, ?_, ?_, ?_, ?_⟩ <;> intro h
  · intro h0; simp [h, h0]; norm_num
  · intro h5; simp [h, h5]; norm_num
  · intro h10; simp [h, h10]; norm_num
  · intro hle; simp [h, hle]
  · intro hgt; simp [h, hgt]
  · simp [h]
  · rcases h with h | h | h <;> simp [h]

/-- Witness for C1 at concrete results. -/
theorem points_by_status_and_time_witness :
    (⟨"1_x", 1, "q", "a", some "a", some 0, 0,
       AnswerStatus.correct, 0, false⟩ : AnswerResult).points = 3/2
  ∧ (⟨"3_x", 3, "q", "a", some "a", some 2, 2,
       AnswerStatus.hint_used, 8, true⟩ : AnswerResult).points = 7/10 := by
  constructor
  · exact (points_by_status_and_time _).1 rfl rfl
  · exact (points_by_status_and_time _).2.2.2.2.2.1 rfl

/-- C2 counterexample: a hint-assisted correct answer (status HINT_USED)
increments the hint counter by two, not one — once from the status branch
and once from the flag branch of `_update_statistics`. -/
theorem hint_counter_double_increment_cex :
    (checkAnswer (fun _ _ => false) false "3_x" 3 "q" "a" 2 (some "a") (some 2)
        8 true none {}).1.status = AnswerStatus.hint_used
  ∧ (checkAnswer (fun _ _ => false) false "3_x" 3 "q" "a" 2 (some "a") (some 2)
        8 true none {}).2.hint_used_count = 2 := by
  constructor <;> rfl

/-- C2 amended: a `check_answer` call whose result has status HINT_USED
increases the hint counter by exactly two (status branch plus flag
branch), and every judged answer increases it by at most two. -/
theorem hint_counter_increments_twice (cmp : String → String → Bool)
    (qid : String) (pn : Nat) (qt ca : String) (ci : Int)
    (ua : Option String) (ai : Option Int) (t : ℚ) (hu : Bool)
    (ts : Option ℚ) (stats : QuizStatistics) :
    ((checkAnswer cmp false qid pn qt ca ci ua ai t hu ts stats).1.status
        = AnswerStatus.hint_used →
      (checkAnswer cmp false qid pn qt ca ci ua ai t hu ts stats).2.hint_used_count
        = stats.hint_used_count + 2)
  ∧ (checkAnswer cmp false qid pn qt ca ci ua ai t hu ts stats).2.hint_used_count
        ≤ stats.hint_used_count + 2 := by
  unfold checkAnswer
  simp only [if_neg (by simp : ¬ (false = true))]
  constructor
  · intro h
    have hflag : hu = true := determineAnswerStatus_hint_used_flag _ _ _ _ _ _ _ _ h
    exact (updateStatistics_hint_count stats _).1 ⟨h, hflag⟩
  · exact (updateStatistics_hint_count stats _).2

/-- Witness for C2's amended theorem at a concrete hint-assisted call. -/
theorem hint_counter_increments_twice_witness :
    (checkAnswer (fun _ _ => false) false "3_x" 3 "q" "a" 2 (some "a") (some 2)
        8 true none {}).2.hint_used_count = ({} : QuizStatistics).hint_used_count + 2 :=
  (hint_counter_increments_twice (fun _ _ => false) "3_x" 3 "q" "a" 2 (some "a")
    (some 2) 8 true none {}).1 rfl

/-- C6 counterexample: with `answer_index = correct_index` but a triggered
timeout (`timeout_seconds = 5`, `time_taken = 5`), the result has status
TIMEOUT and `is_correct = false`, so the unconditional half of the claim
fails. -/
theorem correct_index_timeout_cex :
    (checkAnswer (fun _ _ => false) false "1_x" 1 "q" "a" 0 none (some 0)
        5 false (some 5) {}).1.answer_index = some 0
  ∧ (checkAnswer (fun _ _ => false) false "1_x" 1 "q" "a" 0 none (some 0)
        5 false (some 5) {}).1.correct_index = 0
  ∧ (checkAnswer (fun _ _ => false) false "1_x" 1 "q" "a" 0 none (some 0)
        5 false (some 5) {}).1.status = AnswerStatus.timeout
  ∧ (checkAnswer (fun _ _ => false) false "1_x" 1 "q" "a" 0 none (some 0)
        5 false (some 5) {}).1.is_correct = false := by
  refine ⟨rfl, rfl, ?_, ?_⟩ <;> decide

/-- C6 amended: when the timeout guard does not fire, `check_answer` with
`answer_index` present and equal to `correct_index` yields
`is_correct = true`; with `answer_index` present and different from
`correct_index`, it yields `is_correct = false` unconditionally. -/
theorem checkAnswer_index_correctness (cmp : String → String → Bool)
    (qid : String) (pn : Nat) (qt ca : String) (ci : Int)
    (ua : Option String) (i : Int) (t : ℚ) (hu : Bool)
    (ts : Option ℚ) (stats : QuizStatistics) :
    (timeoutTriggered ts t = false → i = ci →
      (checkAnswer cmp false qid pn qt ca ci ua (some i) t hu ts stats).1.is_correct
        = true)
  ∧ (i ≠ ci →
      (checkAnswer cmp false qid pn qt ca ci ua (some i) t hu ts stats).1.is_correct
        = false) := by
  unfold checkAnswer determineAnswerStatus AnswerResult.is_correct
  constructor
  · intro hto hi
    simp [hto, hi]
  · intro hne
    simp
    split_ifs <;> simp_all

/-- Witness for C6's amended theorem at a concrete call with no timeout. -/
theorem checkAnswer_index_correctness_witness :
    (checkAnswer (fun _ _ => false) false "1_x" 1 "q" "a" 0 none (some 0)
        3 false none {}).1.is_correct = true
  ∧ (checkAnswer (fun _ _ => false) false "1_x" 1 "q" "a" 0 none (some 2)
        3 false none {}).1.is_correct = false := by
  constructor
  · exact (checkAnswer_index_correctness (fun _ _ => false) "1_x" 1 "q" "a" 0
      none 0 3 false none {}).1 rfl rfl
  · exact (checkAnswer_index_correctness (fun _ _ => false) "1_x" 1 "q" "a" 0
      none 2 3 false none {}).2 (by decide)

/-- C9: when an internal error occurs while judging, `check_answer`
returns a result forced to INCORRECT and the statistics accumulator is
completely untouched: nothing is appended to the results list and no
counter changes. -/
theorem checkAnswer_error_path (cmp : String → String → Bool)
    (qid : String) (pn : Nat) (qt ca : String) (ci : Int)
    (ua : Option String) (ai : Option Int) (t : ℚ) (hu : Bool)
    (ts : Option ℚ) (stats : QuizStatistics) :
    (checkAnswer cmp true qid pn qt ca ci ua ai t hu ts stats).1.status
        = AnswerStatus.incorrect
  ∧ (checkAnswer cmp true qid pn qt ca ci ua ai t hu ts stats).2 = stats
  ∧ (checkAnswer cmp true qid pn qt ca ci ua ai t hu ts stats).2.answer_results
        = stats.answer_results
  ∧ (checkAnswer cmp true qid pn qt ca ci ua ai t hu ts stats).2.total_questions
        = stats.total_questions
  ∧ (checkAnswer cmp true qid pn qt ca ci ua ai t hu ts stats).2.total_points
        = stats.total_points
  ∧ (checkAnswer cmp true qid pn qt ca ci ua ai t hu ts stats).2.total_time
        = stats.total_time := by
  unfold checkAnswer
  simp

/-- C10: a zero `timeout_seconds` is falsy in the guard
`if timeout_seconds and time_taken >= timeout_seconds`, so the status is
never TIMEOUT and the call behaves exactly as if no timeout were given. -/
theorem zero_timeout_never_times_out (cmp : String → String → Bool)
    (ca : String) (ci : Int) (ua : Option String) (ai : Option Int)
    (hu : Bool) (t : ℚ) :
    determineAnswerStatus cmp ca ci ua ai hu (some 0) t ≠ AnswerStatus.timeout
  ∧ determineAnswerStatus cmp ca ci ua ai hu (some 0) t
      = determineAnswerStatus cmp ca ci ua ai hu none t := by
  unfold determineAnswerStatus timeoutTriggered
  constructor
  · simp
    split_ifs <;> simp_all
  · simp

/-! ### Helper lemmas for the generator -/

/-- Appending a fresh element keeps a list duplicate-free. -/
theorem nodup_append_singleton {α : Type} {l : List α} {a : α}
    (h : l.Nodup) (ha : a ∉ l) : (l ++ [a]).Nodup := by
  simp [List.nodup_append, h, ha]

/-- An element different from `b` and absent from `l` is absent from
`l ++ [b]`. -/
theorem not_mem_append_singleton {α : Type} {l : List α} {a b : α}
    (h : a ∉ l) (hne : a ≠ b) : a ∉ l ++ [b] := by
  simp [h, hne]

/-- The distractor loop never introduces a duplicate: the accept test
contains `wrong not in wrong_choices`. -/
theorem drawWrongChoices_nodup (pick : Nat → Nat) (field : Poem → String)
    (correct : String) (ec : Bool) :
    ∀ (k : Nat) (others : List Poem) (acc : List String), acc.Nodup →
      (drawWrongChoices pick field correct ec k others acc).Nodup := by
  intro k others acc
  induction k, others, acc using drawWrongChoices.induct pick field correct ec with
  | case1 k acc =>
      intro h; rw [drawWrongChoices]; exact h
  | case2 k p ps acc hlt wp wrong acc2 ih =>
      intro h
      have hacc2 : acc2.Nodup := by
        show (if wrong ∉ acc ∧ (ec = true → wrong ≠ correct) then
          acc ++ [wrong] else acc).Nodup
        split
        · rename_i hcond
          simp [List.nodup_append, h]
          exact fun hmem => absurd hmem hcond.1
        · exact h
      have hres := ih hacc2
      rw [drawWrongChoices]
      simp only [if_pos hlt]
      exact hres
  | case3 k p ps acc hlt =>
      intro h; rw [drawWrongChoices]; simp only [if_neg hlt]; exact h

/-- The distractor loop never picks the correct answer, either because the
accept test compares against it (`ec = true`, the UPPER_TO_LOWER and
LOWER_TO_UPPER case) or because no candidate field equals it. -/
theorem drawWrongChoices_not_correct (pick : Nat → Nat) (field : Poem → String)
    (correct : String) (ec : Bool) :
    ∀ (k : Nat) (others : List Poem) (acc : List String),
      correct ∉ acc →
      (ec = true ∨ ∀ p ∈ others, field p ≠ correct) →
      correct ∉ drawWrongChoices pick field correct ec k others acc := by
  intro k others acc
  induction k, others, acc using drawWrongChoices.induct pick field correct ec with
  | case1 k acc =>
      intro h _; rw [drawWrongChoices]; exact h
  | case2 k p ps acc hlt wp wrong acc2 ih =>
      intro h hall
      have hacc2 : correct ∉ acc2 := by
        show correct ∉ (if wrong ∉ acc ∧ (ec = true → wrong ≠ correct) then
          acc ++ [wrong] else acc)
        split
        · rename_i hcond
          simp [h]
          rcases hall with hec | hall
          · exact fun heq => (hcond.2 hec) heq.symm
          · exact fun heq => hall wp (List.get_mem _ _ _) heq.symm
        · exact h
      have hall2 : ec = true ∨ ∀ p₂ ∈ (p :: ps).erase wp, field p₂ ≠ correct := by
        rcases hall with hec | hall
        · exact Or.inl hec
        · exact Or.inr fun p₂ hp₂ => hall p₂ (List.mem_of_mem_erase hp₂)
      have hres := ih hacc2 hall2
      rw [drawWrongChoices]
      simp only [if_pos hlt]
      exact hres
  | case3 k p ps acc hlt =>
      intro h _; rw [drawWrongChoices]; simp only [if_neg hlt]; exact h

/-- When the POEM_TO_AUTHOR distractor loop does finish, its output has no
duplicates and excludes the correct author: the accept test is
`wrong_author != correct and wrong_author not in wrong_choices`. -/
theorem drawAuthorChoices_some_spec (pick : Nat → Nat) (aas : List String)
    (correct : String) :
    ∀ (fuel k : Nat) (acc res : List String),
      drawAuthorChoices pick aas correct fuel k acc = some res →
      acc.Nodup → correct ∉ acc → res.Nodup ∧ correct ∉ res := by
  intro fuel
  induction fuel with
  | zero => intro k acc res h; simp [drawAuthorChoices] at h
  | succ n ih =>
      intro k acc res h hnd hnc
      rw [drawAuthorChoices] at h
      split at h
      · by_cases hcond : aas.getD (pick k % aas.length) "" ≠ correct ∧
            aas.getD (pick k % aas.length) "" ∉ acc
        · rw [if_pos hcond] at h
          exact ih _ _ _ h (nodup_append_singleton hnd hcond.2)
            (not_mem_append_singleton hnc (fun heq => hcond.1 heq.symm))
        · rw [if_neg hcond] at h
          exact ih _ _ _ h hnd hnc
      · injection h with h
        subst h
        exact ⟨hnd, hnc⟩

/-- When fewer than three authors other than the correct one exist, the
POEM_TO_AUTHOR distractor loop can never collect three distractors, so it
runs forever: in the fuelled model it exhausts every fuel. -/
theorem drawAuthorChoices_stuck (pick : Nat → Nat) (aas : List String)
    (correct : String) (hne : aas ≠ [])
    (hfew : ((aas.filter (fun a => a ≠ correct)).dedup).length < 3) :
    ∀ (fuel k : Nat) (acc : List String), acc.Nodup →
      (∀ x ∈ acc, x ∈ aas ∧ x ≠ correct) →
      drawAuthorChoices pick aas correct fuel k acc = none := by
  intro fuel
  induction fuel with
  | zero => intro k acc _ _; rfl
  | succ n ih =>
      intro k acc hnd hsub
      have hlen : acc.length < 3 := by
        have hsubp : List.Subperm acc ((aas.filter (fun a => a ≠ correct)).dedup) := by
          refine List.subperm_of_subset hnd (fun x hx => ?_)
          rcases hsub x hx with ⟨hmem, hxne⟩
          simp [List.mem_dedup, List.mem_filter, hmem, hxne]
        exact lt_of_le_of_lt hsubp.length_le hfew
      rw [drawAuthorChoices]
      rw [if_pos hlen]
      have hwmem : aas.getD (pick k % aas.length) "" ∈ aas := by
        rw [List.getD_eq_get _ _ (Nat.mod_lt _ (List.length_pos.mpr hne))]
        exact List.get_mem _ _ _
      by_cases hcond : aas.getD (pick k % aas.length) "" ≠ correct ∧
          aas.getD (pick k % aas.length) "" ∉ acc
      · rw [if_pos hcond]
        refine ih _ _ (nodup_append_singleton hnd hcond.2) ?_
        intro x hx
        rcases List.mem_append.mp hx with hx | hx
        · exact hsub x hx
        · obtain rfl := List.mem_singleton.mp hx
          exact ⟨hwmem, hcond.1⟩
      · rw [if_neg hcond]
        exact ih _ _ hnd hsub

/-- Shuffling `wrong ++ [correct]` preserves the choice-list invariants:
the recorded index is in range and points at the correct answer, and the
list stays duplicate-free when the distractors were. -/
theorem choices_spec (sh : List String → List String)
    (hsh : ∀ l, (sh l).Perm l) (wrong : List String) (correct : String) :
    (sh (wrong ++ [correct])).indexOf correct < (sh (wrong ++ [correct])).length
    ∧ (sh (wrong ++ [correct])).getD
        ((sh (wrong ++ [correct])).indexOf correct) "" = correct
    ∧ (wrong.Nodup → correct ∉ wrong → (sh (wrong ++ [correct])).Nodup) := by
  have hperm := hsh (wrong ++ [correct])
  have hmem : correct ∈ sh (wrong ++ [correct]) :=
    hperm.mem_iff.mpr (by simp)
  have hlt := List.indexOf_lt_length.mpr hmem
  refine ⟨hlt, ?_, ?_⟩
  · rw [List.getD_eq_get _ _ hlt]
    exact List.indexOf_get hlt
  · intro hnd hnc
    exact hperm.symm.nodup (by simp [List.nodup_append, hnd, hnc])

/-- The chosen poem is drawn from the available list. -/
theorem chosenPoem_mem (o : RandomOracle) (available : List Poem)
    (h : available ≠ []) : chosenPoem o available h ∈ available :=
  List.get_mem _ _ _

/-- Anatomy of a successful `generate_question` call: some available poem
was chosen, the per-type helper produced the choice data, the question
carries the poem's number and the input quiz type, and the
`(number, quizType)` id was added to the used set. -/
theorem generateQuestion_some_elim (fuel : Nat) (o : RandomOracle)
    (g : QuizGenState) (qt : QuizType) (dif : String) (excl : List Nat)
    (q : QuizQuestion) (g₁ : QuizGenState)
    (h : generateQuestion fuel o g qt dif excl = some (some q, g₁)) :
    ∃ poem res,
      poem ∈ availablePoems g qt dif excl
      ∧ (match qt with
          | QuizType.upper_to_lower => some (generateUpperToLower o g.poems_data poem)
          | QuizType.lower_to_upper => some (generateLowerToUpper o g.poems_data poem)
          | QuizType.author_to_poem => some (generateAuthorToPoem o g.poems_data poem)
          | QuizType.poem_to_author => generatePoemToAuthor fuel o g.poems_data poem)
         = some res
      ∧ q = ⟨poem.number, qt, res.question, res.choices, res.correct,
             res.correct_index, dif⟩
      ∧ g₁ = { g with used_questions := (poem.number, qt) :: g.used_questions } := by
  unfold generateQuestion at h
  split at h
  · simp at h
  · rename_i hne
    cases qt with
    | upper_to_lower =>
        dsimp only at h
        simp only [Option.some.injEq, Prod.mk.injEq] at h
        exact ⟨_, _, chosenPoem_mem _ _ _, rfl, h.1.symm, h.2.symm⟩
    | lower_to_upper =>
        dsimp only at h
        simp only [Option.some.injEq, Prod.mk.injEq] at h
        exact ⟨_, _, chosenPoem_mem _ _ _, rfl, h.1.symm, h.2.symm⟩
    | author_to_poem =>
        dsimp only at h
        simp only [Option.some.injEq, Prod.mk.injEq] at h
        exact ⟨_, _, chosenPoem_mem _ _ _, rfl, h.1.symm, h.2.symm⟩
    | poem_to_author =>
        dsimp only at h
        cases hres : generatePoemToAuthor fuel o g.poems_data
            (chosenPoem o (availablePoems g QuizType.poem_to_author dif excl) hne) with
        | none => rw [hres] at h; simp at h
        | some res =>
            rw [hres] at h
            dsimp only at h
            simp only [Option.some.injEq, Prod.mk.injEq] at h
            exact ⟨_, res, chosenPoem_mem _ _ _, hres, h.1.symm, h.2.symm⟩

/-- A `generate_question` call returning Python `None` leaves the state
untouched. -/
theorem generateQuestion_none_elim (fuel : Nat) (o : RandomOracle)
    (g : QuizGenState) (qt : QuizType) (dif : String) (excl : List Nat)
    (g₁ : QuizGenState)
    (h : generateQuestion fuel o g qt dif excl = some (none, g₁)) : g₁ = g := by
  unfold generateQuestion at h
  split at h
  · simp only [Option.some.injEq, Prod.mk.injEq] at h
    exact h.2.symm
  · rename_i hne
    cases qt with
    | upper_to_lower => dsimp only at h; simp at h
    | lower_to_upper => dsimp only at h; simp at h
    | author_to_poem => dsimp only at h; simp at h
    | poem_to_author =>
        dsimp only at h
        cases hres : generatePoemToAuthor fuel o g.poems_data
            (chosenPoem o (availablePoems g QuizType.poem_to_author dif excl) hne) with
        | none => rw [hres] at h; simp at h
        | some res => rw [hres] at h; simp at h

/-- Step invariant for the used-question set: a question just generated
was not used before, and the state afterwards records exactly it on top of
the previous used set. -/
theorem generateQuestion_used_step (fuel : Nat) (o : RandomOracle)
    (g : QuizGenState) (qt : QuizType) (dif : String) (excl : List Nat)
    (q : QuizQuestion) (g₁ : QuizGenState)
    (h : generateQuestion fuel o g qt dif excl = some (some q, g₁)) :
    (q.poem_number, q.quiz_type) ∉ g.used_questions
    ∧ g₁.used_questions = (q.poem_number, q.quiz_type) :: g.used_questions := by
  obtain ⟨poem, res, hmem, _, hq, hg⟩ :=
    generateQuestion_some_elim fuel o g qt dif excl q g₁ h
  subst hq
  subst hg
  refine ⟨?_, rfl⟩
  have hfil := (List.mem_filter.mp hmem).2
  simpa using hfil

/-- Choice-data invariants of `_generate_upper_to_lower`: index in range,
pointing at the correct answer, no duplicates. -/
theorem generateUpperToLower_spec (o : RandomOracle)
    (hsh : ∀ l, (o.shuffle l).Perm l) (poems : List Poem) (poem : Poem) :
    (generateUpperToLower o poems poem).correct_index
        < (generateUpperToLower o poems poem).choices.length
    ∧ (generateUpperToLower o poems poem).choices.getD
        (generateUpperToLower o poems poem).correct_index ""
        = (generateUpperToLower o poems poem).correct
    ∧ (generateUpperToLower o poems poem).choices.Nodup := by
  have hnd := drawWrongChoices_nodup o.pick Poem.lower poem.lower true 0
    (poems.filter fun p => p.number ≠ poem.number) [] List.nodup_nil
  have hnc := drawWrongChoices_not_correct o.pick Poem.lower poem.lower true 0
    (poems.filter fun p => p.number ≠ poem.number) []
    (List.not_mem_nil _) (Or.inl rfl)
  have hcs := choices_spec o.shuffle hsh
    (drawWrongChoices o.pick Poem.lower poem.lower true 0
      (poems.filter fun p => p.number ≠ poem.number) []) poem.lower
  exact ⟨hcs.1, hcs.2.1, hcs.2.2 hnd hnc⟩

/-- Choice-data invariants of `_generate_lower_to_upper`. -/
theorem generateLowerToUpper_spec (o : RandomOracle)
    (hsh : ∀ l, (o.shuffle l).Perm l) (poems : List Poem) (poem : Poem) :
    (generateLowerToUpper o poems poem).correct_index
        < (generateLowerToUpper o poems poem).choices.length
    ∧ (generateLowerToUpper o poems poem).choices.getD
        (generateLowerToUpper o poems poem).correct_index ""
        = (generateLowerToUpper o poems poem).correct
    ∧ (generateLowerToUpper o poems poem).choices.Nodup := by
  have hnd := drawWrongChoices_nodup o.pick Poem.upper poem.upper true 0
    (poems.filter fun p => p.number ≠ poem.number) [] List.nodup_nil
  have hnc := drawWrongChoices_not_correct o.pick Poem.upper poem.upper true 0
    (poems.filter fun p => p.number ≠ poem.number) []
    (List.not_mem_nil _) (Or.inl rfl)
  have hcs := choices_spec o.shuffle hsh
    (drawWrongChoices o.pick Poem.upper poem.upper true 0
      (poems.filter fun p => p.number ≠ poem.number) []) poem.upper
  exact ⟨hcs.1, hcs.2.1, hcs.2.2 hnd hnc⟩

/-- Choice-data invariants of `_generate_author_to_poem`: the index always
points at the correct answer, but freedom from duplicates needs the
additional assumption that no other poem renders the same full text,
because the accept test does not compare candidates with the correct
answer. -/
theorem generateAuthorToPoem_spec (o : RandomOracle)
    (hsh : ∀ l, (o.shuffle l).Perm l) (poems : List Poem) (poem : Poem) :
    (generateAuthorToPoem o poems poem).correct_index
        < (generateAuthorToPoem o poems poem).choices.length
    ∧ (generateAuthorToPoem o poems poem).choices.getD
        (generateAuthorToPoem o poems poem).correct_index ""
        = (generateAuthorToPoem o poems poem).correct
    ∧ ((∀ p ∈ poems, p.number ≠ poem.number → fullText p ≠ fullText poem) →
        (generateAuthorToPoem o poems poem).choices.Nodup) := by
  have hnd := drawWrongChoices_nodup o.pick fullText (fullText poem) false 0
    (poems.filter fun p => p.number ≠ poem.number) [] List.nodup_nil
  have hcs := choices_spec o.shuffle hsh
    (drawWrongChoices o.pick fullText (fullText poem) false 0
      (poems.filter fun p => p.number ≠ poem.number) []) (fullText poem)
  refine ⟨hcs.1, hcs.2.1, fun hdistinct => ?_⟩
  have hnc := drawWrongChoices_not_correct o.pick fullText (fullText poem) false 0
    (poems.filter fun p => p.number ≠ poem.number) []
    (List.not_mem_nil _)
    (Or.inr fun p hp => hdistinct p (List.mem_filter.mp hp).1
      (by simpa using (List.mem_filter.mp hp).2))
  exact hcs.2.2 hnd hnc

/-- Choice-data invariants of `_generate_poem_to_author`, when its
distractor loop finishes. -/
theorem generatePoemToAuthor_spec (fuel : Nat) (o : RandomOracle)
    (hsh : ∀ l, (o.shuffle l).Perm l) (poems : List Poem) (poem : Poem)
    (res : GenResult)
    (h : generatePoemToAuthor fuel o poems poem = some res) :
    res.correct_index < res.choices.length
    ∧ res.choices.getD res.correct_index "" = res.correct
    ∧ res.choices.Nodup := by
  unfold generatePoemToAuthor at h
  cases hdraw : drawAuthorChoices o.pick ((poems.map Poem.author).dedup)
      poem.author fuel 0 [] with
  | none => rw [hdraw] at h; simp at h
  | some wc =>
      rw [hdraw] at h
      simp only [Option.some.injEq] at h
      subst h
      have hwc := drawAuthorChoices_some_spec o.pick _ _ _ _ _ _ hdraw
        List.nodup_nil (List.not_mem_nil _)
      have hcs := choices_spec o.shuffle hsh wc poem.author
      exact ⟨hcs.1, hcs.2.1, hcs.2.2 hwc.1 hwc.2⟩

/-- C4 corrected: every generated question's `correct_answer_index` is in
range and points at `correct_answer`; the choices are duplicate-free for
the UPPER_TO_LOWER, LOWER_TO_UPPER and POEM_TO_AUTHOR quiz types
unconditionally, and for AUTHOR_TO_POEM under the proviso that no other
poem of the corpus renders the same full text as the chosen poem. -/
theorem generateQuestion_choices_sound (fuel : Nat) (o : RandomOracle)
    (g : QuizGenState) (qt : QuizType) (dif : String) (excl : List Nat)
    (q : QuizQuestion) (g₁ : QuizGenState)
    (hsh : ∀ l, (o.shuffle l).Perm l)
    (h : generateQuestion fuel o g qt dif excl = some (some q, g₁)) :
    (q.correct_answer_index < q.choices.length
      ∧ q.choices.getD q.correct_answer_index "" = q.correct_answer)
  ∧ (qt ≠ QuizType.author_to_poem → q.choices.Nodup)
  ∧ (qt = QuizType.author_to_poem →
      (∀ p ∈ g.poems_data, p.number ≠ q.poem_number →
        fullText p ≠ q.correct_answer) →
      q.choices.Nodup) := by
  obtain ⟨poem, res, hmem, hres, hq, hg⟩ :=
    generateQuestion_some_elim fuel o g qt dif excl q g₁ h
  subst hq
  cases qt with
  | upper_to_lower =>
      obtain rfl := Option.some.inj hres
      have hspec := generateUpperToLower_spec o hsh g.poems_data poem
      exact ⟨⟨hspec.1, hspec.2.1⟩, fun _ => hspec.2.2,
        fun habs => QuizType.noConfusion habs⟩
  | lower_to_upper =>
      obtain rfl := Option.some.inj hres
      have hspec := generateLowerToUpper_spec o hsh g.poems_data poem
      exact ⟨⟨hspec.1, hspec.2.1⟩, fun _ => hspec.2.2,
        fun habs => QuizType.noConfusion habs⟩
  | author_to_poem =>
      obtain rfl := Option.some.inj hres
      have hspec := generateAuthorToPoem_spec o hsh g.poems_data poem
      refine ⟨⟨hspec.1, hspec.2.1⟩, fun hne => absurd rfl hne,
        fun _ hdistinct => hspec.2.2 ?_⟩
      exact hdistinct
  | poem_to_author =>
      have hspec := generatePoemToAuthor_spec fuel o hsh g.poems_data poem res hres
      exact ⟨⟨hspec.1, hspec.2.1⟩, fun _ => hspec.2.2,
        fun habs => QuizType.noConfusion habs⟩

/-- C4 counterexample: on a corpus holding two different poems with
identical text, the AUTHOR_TO_POEM question generated from it carries the
correct text twice among its choices — the accept test of
`_generate_author_to_poem` never compares a candidate against the correct
answer.  (`choices[correctIndex] == correctAnswer` still holds: `index`
returns the first occurrence.) -/
theorem generateQuestion_duplicate_choices_cex :
    generateQuestion 0 idOracle twinState QuizType.author_to_poem "advanced" []
      = some (some dupQuestion, ⟨twinPoems, [(1, QuizType.author_to_poem)]⟩)
    ∧ ¬ dupQuestion.choices.Nodup := by
  constructor
  · rw [generateQuestion, dif_neg (by decide)]
    have hpoem : chosenPoem idOracle
        (availablePoems twinState QuizType.author_to_poem "advanced" [])
        (by decide) = ⟨1, "u", "l", "a"⟩ := by decide
    dsimp only
    rw [hpoem]
    have hdraw : drawWrongChoices idOracle.pick fullText
        (fullText ⟨1, "u", "l", "a"⟩) false 0
        (twinState.poems_data.filter fun p =>
          p.number ≠ (⟨1, "u", "l", "a"⟩ : Poem).number) []
        = [fullText ⟨2, "u", "l", "b"⟩] := by
      rw [show (twinState.poems_data.filter fun p =>
          p.number ≠ (⟨1, "u", "l", "a"⟩ : Poem).number)
          = [⟨2, "u", "l", "b"⟩] from by decide]
      rw [drawWrongChoices]
      norm_num [fullText, idOracle, List.erase]
      rw [drawWrongChoices]
    dsimp only [generateAuthorToPoem]
    rw [hdraw]
    norm_num [idOracle, fullText, dupQuestion, twinState, twinPoems]
    exact ⟨rfl, rfl⟩
  · decide

/-- Witness for C4's amended theorem at a concrete generation over a
one-poem corpus. -/
theorem generateQuestion_choices_sound_witness :
    (soloQuestion.correct_answer_index < soloQuestion.choices.length
      ∧ soloQuestion.choices.getD soloQuestion.correct_answer_index ""
          = soloQuestion.correct_answer)
  ∧ (QuizType.upper_to_lower ≠ QuizType.author_to_poem →
      soloQuestion.choices.Nodup)
  ∧ (QuizType.upper_to_lower = QuizType.author_to_poem →
      (∀ p ∈ soloState.poems_data, p.number ≠ soloQuestion.poem_number →
        fullText p ≠ soloQuestion.correct_answer) →
      soloQuestion.choices.Nodup) :=
  generateQuestion_choices_sound 0 idOracle soloState QuizType.upper_to_lower
    "advanced" [] soloQuestion ⟨soloPoems, [(1, QuizType.upper_to_lower)]⟩
    (fun l => List.Perm.refl l)
    (by
      rw [generateQuestion, dif_neg (by decide)]
      have hpoem : chosenPoem idOracle
          (availablePoems soloState QuizType.upper_to_lower "advanced" [])
          (by decide) = ⟨1, "u1", "l1", "a1"⟩ := by decide
      dsimp only
      rw [hpoem]
      have hdraw : drawWrongChoices idOracle.pick Poem.lower
          ((⟨1, "u1", "l1", "a1"⟩ : Poem).lower) true 0
          (soloState.poems_data.filter fun p =>
            p.number ≠ (⟨1, "u1", "l1", "a1"⟩ : Poem).number) []
          = [] := by
        rw [show (soloState.poems_data.filter fun p =>
            p.number ≠ (⟨1, "u1", "l1", "a1"⟩ : Poem).number) = ([] : List Poem)
          from by decide]
        rw [drawWrongChoices]
      dsimp only [generateUpperToLower]
      rw [hdraw]
      norm_num [idOracle, soloQuestion, soloState, soloPoems])

/-- C3 code_bug: on a corpus whose poems all share one author, a
POEM_TO_AUTHOR `generate_question` call never returns.  Whatever the
random draws, and however many loop iterations are unfolded, the
distractor loop of `_generate_poem_to_author` is still running: its guard
is `while len(wrong_choices) < 3:` with no exhaustion test, unlike the
`and other_poems` guard of the three sibling generators. -/
theorem poem_to_author_generation_diverges (fuel : Nat) (pick : Nat → Nat)
    (shuffle : List String → List String) :
    generateQuestion fuel ⟨pick, shuffle⟩ oneAuthorState
      QuizType.poem_to_author "advanced" [] = none := by
  rw [generateQuestion, dif_neg (by decide)]
  dsimp only
  have hA : (chosenPoem ⟨pick, shuffle⟩
      (availablePoems oneAuthorState QuizType.poem_to_author "advanced" [])
      (by decide)).author = "A" := by
    have hall : ∀ p ∈ availablePoems oneAuthorState QuizType.poem_to_author
        "advanced" [], p.author = "A" := by decide
    have hmem := chosenPoem_mem ⟨pick, shuffle⟩
      (availablePoems oneAuthorState QuizType.poem_to_author "advanced" [])
      (by decide)
    exact hall _ hmem
  have hgen : generatePoemToAuthor fuel ⟨pick, shuffle⟩
      oneAuthorState.poems_data
      (chosenPoem ⟨pick, shuffle⟩
        (availablePoems oneAuthorState QuizType.poem_to_author "advanced" [])
        (by decide)) = none := by
    unfold generatePoemToAuthor
    rw [show (oneAuthorState.poems_data.map Poem.author).dedup = ["A"]
      from by decide]
    rw [hA]
    rw [drawAuthorChoices_stuck pick ["A"] "A" (by decide) (by decide)
      fuel 0 [] List.nodup_nil (by intro x hx; exact absurd hx (List.not_mem_nil x))]
  rw [hgen]

/-- Trace invariant behind C5: the questions returned by any sequence of
`generate_question` calls carry pairwise distinct `(poemNumber, quizType)`
ids, none of which was in the used set at the start. -/
theorem runGen_pairs (calls : List GenCall) :
    ∀ g : QuizGenState,
      ((runGen g calls).1.map (fun q => (q.poem_number, q.quiz_type))).Nodup
      ∧ ∀ q ∈ (runGen g calls).1,
          (q.poem_number, q.quiz_type) ∉ g.used_questions := by
  induction calls with
  | nil => intro g; simp [runGen]
  | cons c cs ih =>
      intro g
      simp only [runGen]
      cases hgen : generateQuestion c.fuel c.o g c.quiz_type c.difficulty
          c.exclude_numbers with
      | none => simp
      | some pr =>
          obtain ⟨oq, g₁⟩ := pr
          cases oq with
          | none =>
              have hgeq := generateQuestion_none_elim _ _ _ _ _ _ _ hgen
              subst hgeq
              exact ih g₁
          | some q =>
              dsimp only
              have hstep := generateQuestion_used_step _ _ _ _ _ _ _ _ hgen
              obtain ⟨ihnd, ihused⟩ := ih g₁
              constructor
              · simp only [List.map_cons, List.nodup_cons]
                refine ⟨?_, ihnd⟩
                intro hcontra
                rcases List.mem_map.mp hcontra with ⟨q₂, hq₂mem, hq₂eq⟩
                have h₂ := ihused q₂ hq₂mem
                rw [hstep.2] at h₂
                exact h₂ (by rw [hq₂eq]; exact List.mem_cons_self _ _)
              · intro q₂ hq₂
                rcases List.mem_cons.mp hq₂ with rfl | hq₂
                · exact hstep.1
                · have h₂ := ihused q₂ hq₂
                  rw [hstep.2] at h₂
                  exact fun hc => h₂ (List.mem_cons_of_mem _ hc)

/-- C5: over any sequence of `generate_question` calls on one generator
instance with no intervening reset, no two returned questions share the
`(poemNumber, quizType)` pair, and `reset_used_questions` empties the
used set. -/
theorem generateQuestion_no_repeats (g : QuizGenState) (calls : List GenCall) :
    ((runGen g calls).1.map (fun q => (q.poem_number, q.quiz_type))).Nodup
    ∧ (resetUsedQuestions g).used_questions = [] :=
  ⟨(runGen_pairs calls g).1, rfl⟩

/-! ### Claim theorems about the session and screen managers -/

/-- C7: when the current question is the last one
(`current_question == total_questions - 1`), `advance_question` marks the
session completed and moves the screen to Result; when the incremented
index is still below the total, it leaves the completion flag and the
screen untouched and clears the per-question UI state. -/
theorem advanceQuestion_spec (s : SessionState) (qs : QuizSession)
    (hq : s.quiz_session = some qs) :
    (qs.current_question = qs.settings.total_questions - 1 →
      (advanceQuestion s).current_screen = ScreenType.result
      ∧ ((advanceQuestion s).quiz_session.map QuizSession.is_completed)
          = some true)
  ∧ (qs.current_question + 1 < qs.settings.total_questions →
      (advanceQuestion s).current_screen = s.current_screen
      ∧ ((advanceQuestion s).quiz_session.map QuizSession.is_completed)
          = some qs.is_completed
      ∧ (advanceQuestion s).current_poem = none
      ∧ (advanceQuestion s).choices = []
      ∧ (advanceQuestion s).answered = false
      ∧ (advanceQuestion s).user_answer = none
      ∧ (advanceQuestion s).show_result = false) := by
  unfold advanceQuestion
  rw [hq]
  constructor
  · intro hlast
    have hge : qs.current_question + 1 ≥ qs.settings.total_questions := by omega
    simp [hge]
  · intro hlt
    have hnge : ¬ qs.current_question + 1 ≥ qs.settings.total_questions := by
      omega
    simp [hnge, resetQuestionState]

/-- Witness for C7 at a session standing on its last question and at a
mid-quiz session. -/
theorem advanceQuestion_spec_witness :
    ((advanceQuestion sessionW).current_screen = ScreenType.result
      ∧ ((advanceQuestion sessionW).quiz_session.map QuizSession.is_completed)
          = some true)
    ∧ ((advanceQuestion sessionMidW).current_screen = sessionMidW.current_screen
      ∧ (advanceQuestion sessionMidW).current_poem = none) := by
  refine ⟨(advanceQuestion_spec sessionW qsW rfl).1 (by decide), ?_⟩
  have h := (advanceQuestion_spec sessionMidW
    { session_id := "s2", current_question := 3 } rfl).2 (by decide)
  exact ⟨h.1, h.2.2.1⟩

/-- The rules scan fails — touching nothing but the confirmation keys —
whenever some rule matching the requested transition requires a
confirmation and none has been granted. -/
theorem checkNavigationRules_confirmation_blocks (fr : Option String)
    (to_s : String) :
    ∀ (rules : List NavigationRule) (s : ScreenMgrState),
      (∃ r ∈ rules, some r.from_screen = fr ∧ r.to_screen = to_s ∧
        r.confirmation_required = true) →
      (s.confirmation_pending = none ∨ s.confirmation_result.getD false = false) →
      (checkNavigationRules fr to_s rules s).1 = false
      ∧ (checkNavigationRules fr to_s rules s).2.current_screen
          = s.current_screen
      ∧ (checkNavigationRules fr to_s rules s).2.screen_states
          = s.screen_states
      ∧ (checkNavigationRules fr to_s rules s).2.navigation_history
          = s.navigation_history := by
  intro rules
  induction rules with
  | nil =>
      intro s hex _
      simp at hex
  | cons r rs ih =>
      intro s hex hgrant
      rw [checkNavigationRules]
      by_cases hmatch : some r.from_screen = fr ∧ r.to_screen = to_s
      · rw [if_pos hmatch]
        by_cases hcondf : r.condition = some false
        · rw [if_pos hcondf]
          exact ⟨rfl, rfl, rfl, rfl⟩
        · rw [if_neg hcondf]
          by_cases hconf : r.confirmation_required = true
          · rw [if_pos hconf]
            cases hpend : s.confirmation_pending with
            | none => simp [showConfirmation, hpend]
            | some m =>
                rcases hgrant with hp | hr
                · rw [hpend] at hp; exact absurd hp (by simp)
                · simp [showConfirmation, hpend, hr]
          · rw [if_neg hconf]
            refine ih s ?_ hgrant
            rcases hex with ⟨r₂, hr₂, hm₂⟩
            rcases List.mem_cons.mp hr₂ with rfl | hmem
            · exact absurd hm₂.2.2 hconf
            · exact ⟨r₂, hmem, hm₂⟩
      · rw [if_neg hmatch]
        refine ih s ?_ hgrant
        rcases hex with ⟨r₂, hr₂, hm₂⟩
        rcases List.mem_cons.mp hr₂ with rfl | hmem
        · exact absurd ⟨hm₂.1, hm₂.2.1⟩ hmatch
        · exact ⟨r₂, hmem, hm₂⟩

/-- C8: a transition request governed by a rule with
`confirmation_required = true` is refused while no confirmation has been
granted: `navigate_to` returns false, the current screen is unchanged, no
`ScreenState` is created or replaced, and no history entry is appended. -/
theorem navigateTo_confirmation_blocks (s : ScreenMgrState) (target : String)
    (force : Bool)
    (hex : ∃ r ∈ s.navigation_rules, some r.from_screen = s.current_screen ∧
      r.to_screen = target ∧ r.confirmation_required = true)
    (hgrant : s.confirmation_pending = none ∨
      s.confirmation_result.getD false = false) :
    (navigateTo s target force).1 = false
    ∧ (navigateTo s target force).2.current_screen = s.current_screen
    ∧ (navigateTo s target force).2.screen_states = s.screen_states
    ∧ (navigateTo s target force).2.navigation_history
        = s.navigation_history := by
  unfold navigateTo
  split_ifs with h1 h2
  · exact ⟨rfl, rfl, rfl, rfl⟩
  · exact ⟨rfl, rfl, rfl, rfl⟩
  · have hchk := checkNavigationRules_confirmation_blocks s.current_screen
      target s.navigation_rules s hex hgrant
    cases hres : checkNavigationRules s.current_screen target
        s.navigation_rules s with
    | mk b s₁ =>
        rw [hres] at hchk
        cases b with
        | false =>
            dsimp only
            exact ⟨rfl, hchk.2.1, hchk.2.2.1, hchk.2.2.2⟩
        | true => exact absurd hchk.1 (by simp)

/-- Witness for C8 at the application's quiz→start interruption rule with
no confirmation granted. -/
theorem navigateTo_confirmation_blocks_witness :
    (navigateTo screenW "start" false).1 = false
    ∧ (navigateTo screenW "start" false).2.current_screen
        = screenW.current_screen
    ∧ (navigateTo screenW "start" false).2.screen_states
        = screenW.screen_states
    ∧ (navigateTo screenW "start" false).2.navigation_history
        = screenW.navigation_history :=
  navigateTo_confirmation_blocks screenW "start" false
    ⟨quizInterruptRule, List.mem_cons_self _ _, rfl, rfl, rfl⟩
    (Or.inl rfl)

end HyakuninIsshu
